import Mathlib

/-!
Verification of the waitlist-signup backend (src/main.py).

The embedding models the Python handlers as pure Lean functions:
* environment variables and the request header are `Option String`
  (`none` = unset / header absent);
* Python string truthiness (`if not s`) is `none` or the empty string;
* exceptions raised inside the signup handler's `try` block are an
  inductive `Exn`; the generic `except Exception` wrapper turns them
  into an Internal-Error response carrying `str(e)`;
* the side-effecting steps (template load, jinja render, provider
  send) are recorded in an effect trace, with the outcomes of the
  render and the provider call supplied by oracles in a `World`.
-/

/-- Python `str.isspace`-style whitespace used by `str.split()` (ASCII part). -/
def pyIsSpace (c : Char) : Bool :=
  c = ' ' || c = '\t' || c = '\n' || c = '\r' || c = '\x0b' || c = '\x0c'

/-- Worker for Python `str.split()` with no separator: split on runs of
whitespace, discarding empty fields. `cur` is the (reversed) token in progress. -/
def pySplitAux : List Char → List Char → List (List Char)
  | [], cur => if cur = [] then [] else [cur.reverse]
  | c :: rest, cur =>
    if pyIsSpace c then
      if cur = [] then pySplitAux rest []
      else cur.reverse :: pySplitAux rest []
    else pySplitAux rest (c :: cur)

/-- Python `s.split()` (no separator argument). -/
def pySplit (s : String) : List String :=
  (pySplitAux s.data []).map fun cs => String.mk cs

/-- Line 120 of src/main.py: `first_name = signup.name.split()[0] if signup.name else ""`. `none` models the `IndexError` raised by `[0]`
when the split list is empty (non-empty, all-whitespace name). -/
def firstNameOpt (name : String) : Option String :=
  if name = "" then some ""
  else (pySplit name).head?

/-- Outcome of the `validate_security_key` dependency when it raises. -/
inductive AuthErr where
  | unauthorizedE (detail : String)
  | forbiddenE (detail : String)
deriving DecidableEq, Repr

/-- The `validate_security_key` dependency from src/main.py lines 48-69.
`envKey` is `os.environ.get("FRONTEND_KEY")`, `headerKey` the
`X-Frontend-Key` header (`none` = absent). Python truthiness: an unset
or empty environment value takes the dev-mode branch; an absent or
empty header value takes the 401 branch. -/
def validateSecurityKey (envKey headerKey : Option String) : Except AuthErr String :=
  match envKey with
  | none => Except.ok "dev-mode"
  | some envVal =>
    if envVal = "" then Except.ok "dev-mode"
    else
      match headerKey with
      | none => Except.error (AuthErr.unauthorizedE "Security key is required")
      | some headerVal =>
        if headerVal = "" then Except.error (AuthErr.unauthorizedE "Security key is required")
        else if headerVal ≠ envVal then Except.error (AuthErr.forbiddenE "Invalid security key")
        else Except.ok headerVal

/-- Response of `read_item` (src/main.py lines 75-77). -/
structure ReadItemResponse where
  item_id : Int
  query : Option String
deriving DecidableEq, Repr

/-- The `read_item` endpoint from src/main.py lines 75-77. -/
def read_item (item_id : Int) (q : Option String) : ReadItemResponse :=
  ReadItemResponse.mk item_id q

/-- The `WaitlistSignup` request model (src/main.py lines 43-45). -/
structure WaitlistSignup where
  email : String
  name : String
deriving DecidableEq, Repr

/-- The dict passed to `resend.Emails.send` (src/main.py lines 155-160). -/
structure EmailParams where
  fromAddr : String
  toAddr : String
  subject : String
  html : String
deriving DecidableEq, Repr

/-- The provider's response dict; `"id"` may or may not be a key. -/
structure ProviderResponse where
  fields : List (String × String)
deriving DecidableEq, Repr

/-- Context passed to `template.render(...)` (src/main.py lines 131-138). -/
structure RenderInput where
  templateContent : String
  firstName : String
  fullName : String
  email : String
  serverUrl : String
deriving DecidableEq, Repr

/-- Exceptions that can be raised inside the handler's `try` block. -/
inductive Exn where
  | http (status : Nat) (detail : String)
  | indexError
  | valueError (msg : String)
  | renderError (msg : String)
  | providerError (msg : String)
deriving DecidableEq, Repr

/-- Python `str(e)` for each modelled exception (starlette `HTTPException.__str__`
is `f"{status_code}: {detail}"`; `str(IndexError(...))` from `[0]` on an
empty list is "list index out of range"). -/
def exnStr : Exn → String
  | Exn.http status detail => toString status ++ ": " ++ detail
  | Exn.indexError => "list index out of range"
  | Exn.valueError m => m
  | Exn.renderError m => m
  | Exn.providerError m => m

/-- The hard-coded fallback Resend key (src/main.py line 87). -/
def fallbackResendKey : String := "re_hcWg7mPg_BaE6DGRwVuCiqD2sVLCdTJUq"

/-- Startup computation of `resend.api_key` (src/main.py lines 85-91):
the environment value if truthy, otherwise the embedded fallback. -/
def startupResendKey : Option String → String
  | none => fallbackResendKey
  | some v => if v = "" then fallbackResendKey else v

/-- Default for `SERVER_URL` (src/main.py line 125). -/
def defaultServerUrl : String := "http://127.0.0.1:8000"

/-- The fixed sender/subject email parameters (src/main.py lines 155-160). -/
def emailParams (s : WaitlistSignup) (html : String) : EmailParams :=
  EmailParams.mk "Dojikets <noreply@dojikets.com>" s.email "Welcome to the Dojikets Waitlist!" html

/-- Observable side-effecting steps of the signup handler. -/
inductive Effect where
  | templateLoad
  | render
  | providerCall (params : EmailParams)
deriving DecidableEq, Repr

/-- Environment plus oracles for the effectful steps of one request. -/
structure World where
  frontendKey : Option String
  headerKey : Option String
  template : Option String
  serverUrl : Option String
  resendKeyEnv : Option String
  renderOutcome : RenderInput → Except String String
  sendOutcome : EmailParams → Except String ProviderResponse

/-- Body of the `try` block of `waitlist_signup` (src/main.py lines 106-169):
template load, first-name extraction, render, key check, provider send.
Returns the success payload (message, email id) or the raised exception,
together with the trace of effectful steps attempted. -/
def signupBody (w : World) (s : WaitlistSignup) :
    Except Exn (String × Option String) × List Effect :=
  match w.template with
  | none => (Except.error (Exn.http 500 "Email template not found"), [Effect.templateLoad])
  | some content =>
    match firstNameOpt s.name with
    | none => (Except.error Exn.indexError, [Effect.templateLoad])
    | some fn =>
      let url := w.serverUrl.getD defaultServerUrl
      match w.renderOutcome (RenderInput.mk content fn s.name s.email url) with
      | Except.error m => (Except.error (Exn.renderError m), [Effect.templateLoad, Effect.render])
      | Except.ok html =>
        if startupResendKey w.resendKeyEnv = "" then
          (Except.error (Exn.valueError "Resend API key is not configured"),
           [Effect.templateLoad, Effect.render])
        else
          match w.sendOutcome (emailParams s html) with
          | Except.error m =>
            (Except.error (Exn.providerError m),
             [Effect.templateLoad, Effect.render, Effect.providerCall (emailParams s html)])
          | Except.ok resp =>
            (Except.ok ("Successfully added " ++ s.name ++ " to waitlist", resp.fields.lookup "id"),
             [Effect.templateLoad, Effect.render, Effect.providerCall (emailParams s html)])

/-- Response of the signup endpoint, by status. -/
inductive SignupResult where
  | unauthorized (detail : String)
  | forbidden (detail : String)
  | internalError (detail : String)
  | success (message : String) (email_id : Option String)
deriving DecidableEq, Repr

/-- Holds exactly on the 403 response shape. -/
def isForbidden : SignupResult → Bool
  | SignupResult.forbidden _ => true
  | _ => false

/-- The full `/waitlist/signup` endpoint (src/main.py lines 104-178):
the `validate_security_key` dependency runs first and short-circuits
with 401/403 before the handler body; any exception in the body is
caught and converted to a 500 whose detail is
`"Failed to send email: " + str(e)`. -/
def waitlistSignup (w : World) (s : WaitlistSignup) : SignupResult × List Effect :=
  match validateSecurityKey w.frontendKey w.headerKey with
  | Except.error (AuthErr.unauthorizedE d) => (SignupResult.unauthorized d, [])
  | Except.error (AuthErr.forbiddenE d) => (SignupResult.forbidden d, [])
  | Except.ok _ =>
    match signupBody w s with
    | (Except.error e, tr) =>
      (SignupResult.internalError ("Failed to send email: " ++ exnStr e), tr)
    | (Except.ok (msg, emailId), tr) => (SignupResult.success msg emailId, tr)

/-- The startup-computed Resend API key is never the empty string. -/
theorem startupResendKey_ne (o : Option String) : ¬ startupResendKey o = "" := by
  cases o with
  | none => simp [startupResendKey, fallbackResendKey]
  | some v =>
    by_cases h : v = "" <;> simp [startupResendKey, h, fallbackResendKey]

/-- C3: if no expected secret is configured in the environment, the
authorization check allows every signup request through (dev-mode),
regardless of header presence or value. -/
theorem c3_theorem (headerKey : Option String) :
    validateSecurityKey none headerKey = Except.ok "dev-mode" := rfl

/-- C8: the item-lookup endpoint returns exactly the object with
`item_id` the given identifier and `query` the given optional query,
`none` when no query parameter is supplied. -/
theorem c8_theorem (i : Int) (q : Option String) :
    read_item i q = ReadItemResponse.mk i q ∧ (read_item i none).query = none :=
  ⟨rfl, rfl⟩

/-- A concrete world for the C1 counterexample: secret configured as
"secret", header present with the empty-string value. -/
def c1World : World :=
  World.mk (some "secret") (some "") (some "T") none none
    (fun _ => Except.ok "H") (fun _ => Except.ok (ProviderResponse.mk [("id", "e1")]))

/-- Concrete signup request used in counterexamples and witnesses. -/
def adaSignup : WaitlistSignup := WaitlistSignup.mk "ada@example.com" "Ada Lovelace"

/-- C1 counterexample: with secret "secret" configured and the header
present with value "" (which differs from the secret), the response is
Unauthorized, not Forbidden — the code treats an empty header value as
missing (`if not security_key`), so the claim as stated is false. -/
theorem c1_counterexample :
    c1World.headerKey = some "" ∧ ("" : String) ≠ "secret" ∧
    isForbidden (waitlistSignup c1World adaSignup).1 = false ∧
    waitlistSignup c1World adaSignup =
      (SignupResult.unauthorized "Security key is required", []) := by
  refine ⟨rfl, by decide, rfl, rfl⟩

/-- C1 (amended): for every configured (non-empty) expected secret and
every present, non-empty header value that differs from the secret, the
signup request fails with Forbidden and no effectful step runs (no email
is dispatched); a present-but-empty header value is instead treated as
missing and yields Unauthorized. -/
theorem c1_theorem (w : World) (s : WaitlistSignup) (envVal hdrVal : String)
    (henv : w.frontendKey = some envVal) (henvNe : envVal ≠ "")
    (hhdr : w.headerKey = some hdrVal) (hhdrNe : hdrVal ≠ "")
    (hdiff : hdrVal ≠ envVal) :
    waitlistSignup w s = (SignupResult.forbidden "Invalid security key", []) := by
  simp [waitlistSignup, validateSecurityKey, henv, henvNe, hhdr, hhdrNe, hdiff]

/-- C1 witness: instantiating the amended theorem at secret "secret",
header value "wrong". -/
theorem c1_witness :
    waitlistSignup c1World adaSignup = (SignupResult.unauthorized "Security key is required", []) ∧
    waitlistSignup (World.mk (some "secret") (some "wrong") (some "T") none none
        (fun _ => Except.ok "H") (fun _ => Except.ok (ProviderResponse.mk [])))
      adaSignup = (SignupResult.forbidden "Invalid security key", []) :=
  ⟨rfl, c1_theorem _ adaSignup "secret" "wrong" rfl (by decide) rfl (by decide) (by decide)⟩

/-- C2: for every configured (non-empty) expected secret, if the
`X-Frontend-Key` header is absent, the request fails with Unauthorized
and the effect trace is empty: no template load, render, or provider
call happens, so no email is dispatched. -/
theorem c2_theorem (w : World) (s : WaitlistSignup) (envVal : String)
    (henv : w.frontendKey = some envVal) (henvNe : envVal ≠ "")
    (hhdr : w.headerKey = none) :
    waitlistSignup w s = (SignupResult.unauthorized "Security key is required", []) := by
  simp [waitlistSignup, validateSecurityKey, henv, henvNe, hhdr]

/-- C2 witness: secret "secret" configured, header absent. -/
theorem c2_witness :
    waitlistSignup (World.mk (some "secret") none (some "T") none none
        (fun _ => Except.ok "H") (fun _ => Except.ok (ProviderResponse.mk [])))
      adaSignup = (SignupResult.unauthorized "Security key is required", []) :=
  c2_theorem _ adaSignup "secret" rfl (by decide) rfl

/-- C4: the derived first name is the leading whitespace-delimited token
of the provided name whenever one exists, and the empty string when the
name is empty; in particular "Ada Lovelace" yields "Ada" and "" yields "". -/
theorem c4_theorem (name : String) :
    (name = "" → firstNameOpt name = some "") ∧
    (∀ t ts, pySplit name = t :: ts → firstNameOpt name = some t) ∧
    firstNameOpt "Ada Lovelace" = some "Ada" ∧
    firstNameOpt "" = some "" := by
  refine ⟨fun h => by simp [firstNameOpt, h], ?_, by decide, by decide⟩
  intro t ts hsplit
  have hne : name ≠ "" := by
    intro h
    rw [h] at hsplit
    have : pySplit "" = [] := rfl
    rw [this] at hsplit
    cases hsplit
  rw [firstNameOpt, if_neg hne, hsplit]
  rfl

/-- C4 witness: the leading-token case at name "Ada Lovelace". -/
theorem c4_witness : firstNameOpt "Ada Lovelace" = some "Ada" := by
  have h := c4_theorem "Ada Lovelace"
  exact h.2.1 "Ada" ["Lovelace"] (by decide)

/-- C5: for every authorized signup request (the security-key dependency
returns ok), if the template file is absent the response is a 500
Internal-Error (the handler's HTTPException is re-wrapped by the generic
catch) and the effect trace holds only the template-load attempt: no
provider call is made. -/
theorem c5_theorem (w : World) (s : WaitlistSignup) (v : String)
    (hauth : validateSecurityKey w.frontendKey w.headerKey = Except.ok v)
    (htpl : w.template = none) :
    waitlistSignup w s =
      (SignupResult.internalError
        ("Failed to send email: " ++ exnStr (Exn.http 500 "Email template not found")),
       [Effect.templateLoad]) ∧
    ∀ p, Effect.providerCall p ∉ (waitlistSignup w s).2 := by
  have h : waitlistSignup w s =
      (SignupResult.internalError
        ("Failed to send email: " ++ exnStr (Exn.http 500 "Email template not found")),
       [Effect.templateLoad]) := by
    simp [waitlistSignup, hauth, signupBody, htpl]
  exact ⟨h, by simp [h]⟩

/-- A concrete world where the template file is absent. -/
def c5World : World :=
  World.mk none none none none none
    (fun _ => Except.ok "H") (fun _ => Except.ok (ProviderResponse.mk []))

/-- C5 witness: no secret configured (authorized via dev-mode), template absent. -/
theorem c5_witness :
    waitlistSignup c5World adaSignup =
      (SignupResult.internalError
        ("Failed to send email: " ++ exnStr (Exn.http 500 "Email template not found")),
       [Effect.templateLoad]) ∧
    ∀ p, Effect.providerCall p ∉ (waitlistSignup c5World adaSignup).2 :=
  c5_theorem c5World adaSignup "dev-mode" rfl rfl

/-- C6: for every authorized signup request that reaches the provider
call, if the provider call raises with message `errMsg` the response is
an Internal-Error whose detail is `"Failed to send email: " ++ errMsg`,
which includes the exception's textual message. -/
theorem c6_theorem (w : World) (s : WaitlistSignup) (v content fn html errMsg : String)
    (hauth : validateSecurityKey w.frontendKey w.headerKey = Except.ok v)
    (htpl : w.template = some content)
    (hfn : firstNameOpt s.name = some fn)
    (hrender : w.renderOutcome
        (RenderInput.mk content fn s.name s.email (w.serverUrl.getD defaultServerUrl)) =
      Except.ok html)
    (hsend : w.sendOutcome (emailParams s html) = Except.error errMsg) :
    (waitlistSignup w s).1 =
      SignupResult.internalError ("Failed to send email: " ++ errMsg) ∧
    ∃ pre, "Failed to send email: " ++ errMsg = pre ++ errMsg := by
  refine ⟨?_, "Failed to send email: ", rfl⟩
  simp [waitlistSignup, hauth, signupBody, htpl, hfn, hrender,
    startupResendKey_ne, hsend, exnStr]

/-- A concrete world whose provider call raises. -/
def c6World : World :=
  World.mk none none (some "T") none none
    (fun _ => Except.ok "H") (fun _ => Except.error "Invalid API key")

/-- C6 witness: provider raises "Invalid API key"; the 500 detail carries it. -/
theorem c6_witness :
    (waitlistSignup c6World adaSignup).1 =
      SignupResult.internalError ("Failed to send email: " ++ "Invalid API key") ∧
    ∃ pre, "Failed to send email: " ++ "Invalid API key" = pre ++ "Invalid API key" :=
  c6_theorem c6World adaSignup "dev-mode" "T" "Ada" "H" "Invalid API key"
    rfl rfl (by decide) rfl rfl

/-- C7: for every signup request on which the provider call succeeds with
response `resp`, the handler returns success with the confirmation
message (which includes the signup name) and `email_id` equal to the
looked-up `"id"` field of the provider response — `some` when present,
`none` when absent. -/
theorem c7_theorem (w : World) (s : WaitlistSignup) (v content fn html : String)
    (resp : ProviderResponse)
    (hauth : validateSecurityKey w.frontendKey w.headerKey = Except.ok v)
    (htpl : w.template = some content)
    (hfn : firstNameOpt s.name = some fn)
    (hrender : w.renderOutcome
        (RenderInput.mk content fn s.name s.email (w.serverUrl.getD defaultServerUrl)) =
      Except.ok html)
    (hsend : w.sendOutcome (emailParams s html) = Except.ok resp) :
    (waitlistSignup w s).1 =
      SignupResult.success ("Successfully added " ++ s.name ++ " to waitlist")
        (resp.fields.lookup "id") ∧
    ∃ pre post, "Successfully added " ++ s.name ++ " to waitlist" = pre ++ s.name ++ post := by
  refine ⟨?_, "Successfully added ", " to waitlist", rfl⟩
  simp [waitlistSignup, hauth, signupBody, htpl, hfn, hrender,
    startupResendKey_ne, hsend]

/-- A concrete world whose provider call succeeds with an "id" field. -/
def c7WorldWithId : World :=
  World.mk none none (some "T") none none
    (fun _ => Except.ok "H") (fun _ => Except.ok (ProviderResponse.mk [("id", "email_123")]))

/-- A concrete world whose provider call succeeds with no "id" field. -/
def c7WorldNoId : World :=
  World.mk none none (some "T") none none
    (fun _ => Except.ok "H") (fun _ => Except.ok (ProviderResponse.mk [("status", "queued")]))

/-- C7 witness: instantiations with the "id" field present and absent. -/
theorem c7_witness :
    ((waitlistSignup c7WorldWithId adaSignup).1 =
      SignupResult.success ("Successfully added " ++ "Ada Lovelace" ++ " to waitlist")
        (some "email_123")) ∧
    ((waitlistSignup c7WorldNoId adaSignup).1 =
      SignupResult.success ("Successfully added " ++ "Ada Lovelace" ++ " to waitlist")
        none) := by
  have h1 := c7_theorem c7WorldWithId adaSignup "dev-mode" "T" "Ada" "H"
    (ProviderResponse.mk [("id", "email_123")]) rfl rfl (by decide) rfl rfl
  have h2 := c7_theorem c7WorldNoId adaSignup "dev-mode" "T" "Ada" "H"
    (ProviderResponse.mk [("status", "queued")]) rfl rfl (by decide) rfl rfl
  exact ⟨h1.1, h2.1⟩

/-- Splitting a run of whitespace yields no token. -/
theorem pySplitAux_all_space (cs : List Char) (h : ∀ c ∈ cs, pyIsSpace c = true) :
    pySplitAux cs [] = [] := by
  induction cs with
  | nil => rfl
  | cons c rest ih =>
    have hc : pyIsSpace c = true := h c (List.mem_cons_self c rest)
    have hrest : ∀ c ∈ rest, pyIsSpace c = true :=
      fun d hd => h d (List.mem_cons_of_mem c hd)
    simp [pySplitAux, hc, ih hrest]

/-- A non-empty all-whitespace name makes `name.split()[0]` raise. -/
theorem firstNameOpt_all_space (name : String) (hne : name ≠ "")
    (hws : ∀ c ∈ name.data, pyIsSpace c = true) :
    firstNameOpt name = none := by
  rw [firstNameOpt, if_neg hne]
  rw [pySplit, pySplitAux_all_space name.data hws]
  rfl

/-- C9: for every authorized signup request whose name is non-empty but
all-whitespace, the first-name derivation raises an IndexError, so the
request returns a 500 Internal-Error and the effect trace holds only the
template load: nothing is rendered or dispatched, even though
authorization succeeded and the template file exists. -/
theorem c9_theorem (w : World) (s : WaitlistSignup) (v content : String)
    (hauth : validateSecurityKey w.frontendKey w.headerKey = Except.ok v)
    (htpl : w.template = some content)
    (hne : s.name ≠ "")
    (hws : ∀ c ∈ s.name.data, pyIsSpace c = true) :
    firstNameOpt s.name = none ∧
    waitlistSignup w s =
      (SignupResult.internalError ("Failed to send email: " ++ exnStr Exn.indexError),
       [Effect.templateLoad]) := by
  have hfn : firstNameOpt s.name = none := firstNameOpt_all_space s.name hne hws
  exact ⟨hfn, by simp [waitlistSignup, hauth, signupBody, htpl, hfn]⟩

/-- A concrete world for C9: template present, no secret configured. -/
def c9World : World :=
  World.mk none none (some "T") none none
    (fun _ => Except.ok "H") (fun _ => Except.ok (ProviderResponse.mk []))

/-- C9 witness: name " " (a single space). -/
theorem c9_witness :
    firstNameOpt " " = none ∧
    waitlistSignup c9World (WaitlistSignup.mk "ada@example.com" " ") =
      (SignupResult.internalError ("Failed to send email: " ++ exnStr Exn.indexError),
       [Effect.templateLoad]) :=
  c9_theorem c9World (WaitlistSignup.mk "ada@example.com" " ") "dev-mode" "T"
    rfl rfl (by decide) (by decide)

/-- C10: the startup fallback makes the Resend API key non-empty for
every environment, so the handler's "Resend API key is not configured"
branch is unreachable: the signup body never raises that ValueError. -/
theorem c10_theorem (w : World) (s : WaitlistSignup) :
    startupResendKey w.resendKeyEnv ≠ "" ∧
    ∀ m, (signupBody w s).1 ≠ Except.error (Exn.valueError m) := by
  refine ⟨startupResendKey_ne w.resendKeyEnv, fun m => ?_⟩
  unfold signupBody
  cases w.template with
  | none => simp
  | some content =>
    cases hfn : firstNameOpt s.name with
    | none => simp
    | some fn =>
      simp only []
      cases hr : w.renderOutcome
          (RenderInput.mk content fn s.name s.email (w.serverUrl.getD defaultServerUrl)) with
      | error mr => simp [hr]
      | ok html =>
        cases hs : w.sendOutcome (emailParams s html) with
        | error ms => simp [startupResendKey_ne w.resendKeyEnv, hs]
        | ok resp => simp [startupResendKey_ne w.resendKeyEnv, hs]
